import Mathlib

/-!
Shallow embedding of the OAuth2 Authorization-Code-with-PKCE demo
(`src/complete_oauth_demo.py`) of this repository.

Python strings are modelled as Lean `String` (or `List Char` where the
code manipulates the characters), byte strings as `List Nat` (each entry
one byte value), Python dicts built by the code as association lists in
insertion order, and the mutable attributes the handlers attach to the
long-lived `HTTPServer` object as an explicit `ServerState` record that
each handler threads through.  Standard-library collaborators that the
demo only calls (SHA-256, the lenient base64url decoder, `json.loads`,
and the HTTP token endpoint reached through `urllib.request.urlopen`)
are passed in as explicit function parameters, so theorems quantify over
their behaviour; the base64url ENCODER, whose output shape the PKCE
properties depend on, is embedded concretely.
-/

/-- Module constant `AUTH0_DOMAIN` (line 19 of the source). -/
def AUTH0_DOMAIN : String := "dev-a85i5cax3v3cy6l4.us.auth0.com"

/-- Module constant `CLIENT_ID` (line 20). -/
def CLIENT_ID : String := "QhgXEVKKNmJzLwQxZeUuxtfqXlf619S5"

/-- Module constant `REDIRECT_URI` (line 21). -/
def REDIRECT_URI : String := "http://localhost:8091/callback"

/-- Module constant `SCOPE` (line 22). -/
def SCOPE : String := "openid profile email"

/-- The four module-level configuration constants, gathered in a record so
that theorems can speak about which of the two call sites reads which
configuration value.  The running program uses exactly `defaultConfig`. -/
structure Config where
  domain : String
  client_id : String
  redirect_uri : String
  scope : String
  deriving DecidableEq

/-- The configuration the module constants denote. -/
def defaultConfig : Config :=
  ⟨AUTH0_DOMAIN, CLIENT_ID, REDIRECT_URI, SCOPE⟩

/-- The alphabet used by `base64.urlsafe_b64encode`. -/
def b64Alphabet : List Char :=
  "ABCDEFGHIJKLMNOPQRSTUVWXYZabcdefghijklmnopqrstuvwxyz0123456789-_".data

/-- The output character for a 6-bit group. -/
def b64char (n : Nat) : Char := b64Alphabet.getD (n % 64) 'A'

/-- `base64.urlsafe_b64encode` on a byte list, producing the padded
character sequence (padding `=` included, exactly as the Python function
returns it before the demo strips it). -/
def b64EncodeChars : List Nat → List Char
  | [] => []
  | [b1] => [b64char (b1 / 4), b64char (b1 % 4 * 16), '=', '=']
  | [b1, b2] => [b64char (b1 / 4), b64char (b1 % 4 * 16 + b2 / 16),
                 b64char (b2 % 16 * 4), '=']
  | b1 :: b2 :: b3 :: rest =>
      b64char (b1 / 4) :: b64char (b1 % 4 * 16 + b2 / 16) ::
      b64char (b2 % 16 * 4 + b3 / 64) :: b64char (b3 % 64) ::
      b64EncodeChars rest

/-- Python's rstrip of the padding character: removes every trailing
padding character, models the demo's rstrip call on the encoded string. -/
def rstripEq (l : List Char) : List Char :=
  (l.reverse.dropWhile (fun c => c == '=')).reverse

/-- UTF-8 bytes of a string; the strings the demo hashes are ASCII, where
the byte sequence is the code-point sequence. Models `str.encode()`. -/
def strBytes (s : String) : List Nat := s.data.map Char.toNat

/-- `code_verifier` of `handle_login` (line 82):
`base64.urlsafe_b64encode(secrets.token_bytes(32)).decode().rstrip('=')`,
as a function of the 32 random bytes returned by `secrets.token_bytes`. -/
def codeVerifierOf (randomBytes : List Nat) : String :=
  ⟨rstripEq (b64EncodeChars randomBytes)⟩

/-- `code_challenge` of `handle_login` (lines 83-85):
`base64.urlsafe_b64encode(hashlib.sha256(code_verifier.encode()).digest()).decode().rstrip('=')`,
with `hashlib.sha256(...).digest()` passed in as the function `sha256`. -/
def codeChallengeOf (sha256 : List Nat → List Nat) (code_verifier : String) : String :=
  ⟨rstripEq (b64EncodeChars (sha256 (strBytes code_verifier)))⟩

/-- The length of the padded base64 encoding: four output characters per
three-byte group, the final partial group padded to four. -/
theorem b64EncodeChars_length : ∀ (l : List Nat),
    (b64EncodeChars l).length = ((l.length + 2) / 3) * 4
  | [] => rfl
  | [_] => by simp [b64EncodeChars]
  | [_, _] => by simp [b64EncodeChars]
  | _ :: _ :: _ :: rest => by
      have ih := b64EncodeChars_length rest
      simp [b64EncodeChars, ih]
      omega

/-- Every 6-bit group maps into the urlsafe alphabet. -/
theorem b64char_mem (n : Nat) : b64char n ∈ b64Alphabet := by
  have hlt : n % 64 < b64Alphabet.length := by
    have : n % 64 < 64 := Nat.mod_lt _ (by omega)
    simpa [b64Alphabet] using this
  have : b64Alphabet.getD (n % 64) 'A' = b64Alphabet.get ⟨n % 64, hlt⟩ := by
    simp [List.getD_eq_getElem?_getD, List.getElem?_eq_getElem hlt]
  rw [b64char, this]
  exact List.get_mem _ _ _

/-- RFC 7636 unreserved characters: ALPHA, DIGIT, and the four marks. -/
def unreservedChars : List Char :=
  "ABCDEFGHIJKLMNOPQRSTUVWXYZabcdefghijklmnopqrstuvwxyz0123456789-._~".data

/-- The urlsafe alphabet is contained in the RFC 7636 unreserved set. -/
theorem b64Alphabet_unreserved : ∀ c ∈ b64Alphabet, c ∈ unreservedChars := by
  decide

/-- Alphabet characters are never the padding character. -/
theorem b64_ne_pad {c : Char} (h : c ∈ b64Alphabet) : (c == '=') = false := by
  rcases hb : c == '=' with _ | _
  · rfl
  · exfalso
    have hc : c = '=' := by simpa using hb
    subst hc
    revert h
    decide

/-- A byte list of length 2 modulo 3 encodes to an alphabet-only body
followed by exactly one padding character. -/
theorem b64EncodeChars_mod2 : ∀ (l : List Nat), l.length % 3 = 2 →
    ∃ body, b64EncodeChars l = body ++ ['='] ∧ ∀ c ∈ body, c ∈ b64Alphabet
  | [], h => by simp at h
  | [_], h => by simp at h
  | [b1, b2], _ =>
      ⟨[b64char (b1 / 4), b64char (b1 % 4 * 16 + b2 / 16), b64char (b2 % 16 * 4)],
        by simp [b64EncodeChars],
        by
          intro c hc
          simp only [List.mem_cons, List.not_mem_nil, or_false] at hc
          rcases hc with rfl | rfl | rfl <;> exact b64char_mem _⟩
  | b1 :: b2 :: b3 :: rest, h => by
      have hr : rest.length % 3 = 2 := by
        simp only [List.length_cons] at h
        omega
      obtain ⟨body, hb, hmem⟩ := b64EncodeChars_mod2 rest hr
      refine ⟨b64char (b1 / 4) :: b64char (b1 % 4 * 16 + b2 / 16) ::
        b64char (b2 % 16 * 4 + b3 / 64) :: b64char (b3 % 64) :: body, ?_, ?_⟩
      · simp [b64EncodeChars, hb]
      · intro c hc
        simp only [List.mem_cons] at hc
        rcases hc with rfl | rfl | rfl | rfl | hc
        · exact b64char_mem _
        · exact b64char_mem _
        · exact b64char_mem _
        · exact b64char_mem _
        · exact hmem c hc

/-- dropWhile is the identity on a list whose entries all fail the test. -/
theorem dropWhile_pad_eq_self (l : List Char)
    (h : ∀ c ∈ l, (c == '=') = false) :
    l.dropWhile (fun c => c == '=') = l := by
  cases l with
  | nil => rfl
  | cons a t => simp [List.dropWhile_cons, h a (by simp)]

/-- Stripping the single trailing padding character of an alphabet-only
body returns the body. -/
theorem rstripEq_body_pad (body : List Char)
    (h : ∀ c ∈ body, c ∈ b64Alphabet) :
    rstripEq (body ++ ['=']) = body := by
  unfold rstripEq
  rw [List.reverse_append]
  simp only [List.reverse_cons, List.reverse_nil, List.nil_append,
    List.singleton_append, List.dropWhile_cons]
  have hpad : (('=' : Char) == '=') = true := by decide
  rw [hpad]
  simp only [if_true]
  rw [dropWhile_pad_eq_self _ (fun c hc => b64_ne_pad (h c (by simpa using hc)))]
  exact List.reverse_reverse body

/-- The verifier built from 32 random bytes: its character list is the
44-character padded encoding with the one padding character stripped. -/
theorem codeVerifierOf_eq_body (randomBytes : List Nat)
    (h32 : randomBytes.length = 32) :
    ∃ body, (codeVerifierOf randomBytes).data = body ∧
      body.length = 43 ∧ ∀ c ∈ body, c ∈ b64Alphabet := by
  have hmod : randomBytes.length % 3 = 2 := by rw [h32]
  obtain ⟨body, hb, hmem⟩ := b64EncodeChars_mod2 randomBytes hmod
  have hlen : (b64EncodeChars randomBytes).length = 44 := by
    rw [b64EncodeChars_length, h32]
  have hbodylen : body.length = 43 := by
    rw [hb] at hlen
    simp at hlen
    omega
  refine ⟨body, ?_, hbodylen, hmem⟩
  show rstripEq (b64EncodeChars randomBytes) = body
  rw [hb]
  exact rstripEq_body_pad body hmem

/-- The verifier of any 32-byte random input is 43 characters long. -/
theorem codeVerifierOf_length (randomBytes : List Nat)
    (h32 : randomBytes.length = 32) :
    (codeVerifierOf randomBytes).length = 43 := by
  obtain ⟨body, hb, hlen, _⟩ := codeVerifierOf_eq_body randomBytes h32
  show (codeVerifierOf randomBytes).data.length = 43
  rw [hb, hlen]

/-- Every character of the verifier lies in the urlsafe alphabet. -/
theorem codeVerifierOf_charset (randomBytes : List Nat)
    (h32 : randomBytes.length = 32) :
    ∀ c ∈ (codeVerifierOf randomBytes).data, c ∈ b64Alphabet := by
  obtain ⟨body, hb, _, hmem⟩ := codeVerifierOf_eq_body randomBytes h32
  rw [hb]
  exact hmem

/-- The mutable attributes the handlers attach to the long-lived
`HTTPServer` object: `code_verifier` (set by `handle_login`, line 88),
`access_token` and `id_token` (set by `handle_callback`, lines 132-133).
An unset attribute is `none`. -/
structure ServerState where
  code_verifier : Option String
  access_token : Option String
  id_token : Option String
  deriving DecidableEq

/-- The authorization-request parameter dict of `handle_login`
(lines 91-99), in insertion order, given the already computed
`code_challenge` and the random `state` token. -/
def auth_params (cfg : Config) (code_challenge : String) (stateToken : String) :
    List (String × String) :=
  [("response_type", "code"),
   ("client_id", cfg.client_id),
   ("redirect_uri", cfg.redirect_uri),
   ("scope", cfg.scope),
   ("code_challenge", code_challenge),
   ("code_challenge_method", "S256"),
   ("state", stateToken)]

/-- Outcome of `handle_login`: the 302 redirect carrying the
authorization parameters, and the updated server state. -/
structure LoginResult where
  status : Nat
  params : List (String × String)
  server : ServerState
  deriving DecidableEq

/-- `handle_login` (lines 80-111): generate the PKCE pair from the 32
random bytes of `secrets.token_bytes(32)`, store the verifier in
`self.server.code_verifier`, build the authorization parameters (the
`state` value of `secrets.token_urlsafe(32)` is passed in), and answer
302.  SHA-256 is the parameter `sha256`. -/
def handle_login (sha256 : List Nat → List Nat) (cfg : Config)
    (s : ServerState) (randomBytes : List Nat) (stateToken : String) :
    LoginResult :=
  let code_verifier := codeVerifierOf randomBytes
  let code_challenge := codeChallengeOf sha256 code_verifier
  { status := 302,
    params := auth_params cfg code_challenge stateToken,
    server := { s with code_verifier := some code_verifier } }

/-- The form-encoded POST that `exchange_code_for_tokens` (lines 246-271)
issues: the body dict of lines 250-256 plus the target URL, and the
timeout handed to `urllib.request.urlopen` -- the source calls
`urlopen(req)` with no timeout argument (line 273), which this embedding
records as `none`. -/
structure TokenRequest where
  url : String
  grant_type : String
  client_id : String
  code : String
  redirect_uri : String
  code_verifier : String
  timeout : Option Nat
  deriving DecidableEq

/-- `exchange_code_for_tokens` (lines 246-271) up to the network call:
the request it constructs.  The source reads the verifier from
`self.server.code_verifier`; the caller passes that attribute in. -/
def exchange_code_for_tokens (cfg : Config) (verifier : String)
    (auth_code : String) : TokenRequest :=
  { url := "https://" ++ cfg.domain ++ "/oauth/token",
    grant_type := "authorization_code",
    client_id := cfg.client_id,
    code := auth_code,
    redirect_uri := cfg.redirect_uri,
    code_verifier := verifier,
    timeout := none }

/-- What the token endpoint call can come back with, as observable by the
demo: `urlopen` raising (non-success HTTP status or transport failure),
`json.loads` raising (body not a JSON dict of strings), or a parsed
token dict. -/
inductive EndpointReply where
  | httpError
  | badJson
  | ok (tokens : List (String × String))
  deriving DecidableEq

/-- Query parameters of the callback request, after
`urllib.parse.parse_qs` (lines 115-116); `none` means the key is absent. -/
structure CallbackParams where
  error : Option String
  code : Option String
  state : Option String
  deriving DecidableEq

/-- Outcome of one `handle_callback` request: HTTP status sent to the
browser, the server state afterwards, how many token-exchange POSTs were
issued while serving it, and the request sent when one was. -/
structure CallbackResult where
  status : Nat
  server : ServerState
  exchangeCalls : Nat
  sentRequest : Option TokenRequest
  deriving DecidableEq

/-- `handle_callback` (lines 113-194).  Checks `error`, then `code`; then
the try block calls `exchange_code_for_tokens`, which reads
`self.server.code_verifier` (an AttributeError when no login ever ran --
caught by the except, answered 500, before any POST).  A raising POST or
a `tokens` dict without `access_token` also lands in the except clause
(500, nothing stored); on success `access_token` and `id_token` are
stored on the server and the browser gets 200. -/
def handle_callback (cfg : Config) (endpoint : TokenRequest → EndpointReply)
    (s : ServerState) (p : CallbackParams) : CallbackResult :=
  match p.error with
  | some _ => ⟨400, s, 0, none⟩
  | none =>
    match p.code with
    | none => ⟨400, s, 0, none⟩
    | some auth_code =>
      match s.code_verifier with
      | none => ⟨500, s, 0, none⟩
      | some v =>
        let req := exchange_code_for_tokens cfg v auth_code
        match endpoint req with
        | .httpError => ⟨500, s, 1, some req⟩
        | .badJson => ⟨500, s, 1, some req⟩
        | .ok tokens =>
          match List.lookup "access_token" tokens with
          | none => ⟨500, s, 1, some req⟩
          | some access_token =>
            ⟨200,
             { s with access_token := some access_token,
                      id_token := some ((List.lookup "id_token" tokens).getD "") },
             1, some req⟩

/-- Sequential delivery of several callback requests to the same server,
accumulating the total number of token-exchange POSTs issued. -/
def run_callbacks (cfg : Config) (endpoint : TokenRequest → EndpointReply) :
    ServerState → List CallbackParams → ServerState × Nat
  | s, [] => (s, 0)
  | s, p :: rest =>
      let r := handle_callback cfg endpoint s p
      let t := run_callbacks cfg endpoint r.server rest
      (t.1, r.exchangeCalls + t.2)

/-- `handle_protected_api` (lines 196-244): the Authorization header is
read into a local (line 198) and never used again; the response depends
only on whether `self.server.access_token` exists -- 401 without it, 200
(echoing the stored token in the page) with it. -/
def handle_protected_api (s : ServerState) (authHeader : String) :
    Nat × Option String :=
  let _auth_header := authHeader
  match s.access_token with
  | none => (401, none)
  | some tok => (200, some tok)

/-- JSON values as `json.loads` can return them. -/
inductive JsonV where
  | obj (fields : List (String × JsonV))
  | arr (elems : List JsonV)
  | str (s : String)
  | num (n : Int)
  | boolean (b : Bool)
  | null

/-- Python's `split` on the dot character: every occurrence splits,
empty segments kept, the empty string giving one empty segment. -/
def splitDots : List Char → List (List Char)
  | [] => [[]]
  | c :: rest =>
      let r := splitDots rest
      if c = '.' then [] :: r
      else
        match r with
        | [] => [[c]]
        | h :: t => (c :: h) :: t

/-- The padded payload segment `handle_callback` hands to the base64url
decoder: segment two of the token, extended by `4 - len % 4` padding
characters (lines 290-292; note a length that is already a multiple of
four receives FOUR padding characters). -/
def paddedPayload (jwt_token : String) : List Char :=
  let payload := (splitDots jwt_token.data).getD 1 []
  payload ++ List.replicate (4 - payload.length % 4) '='

/-- `parse_jwt_payload` (lines 278-296).  The falsy check on the input,
the three-segment check, then the try block: `base64.urlsafe_b64decode`
(the lenient stdlib decoder, parameter `b64decode`, `none` when it
raises) and `json.loads` (parameter `jsonLoads`, `none` when it raises);
any raise is absorbed into an empty dict. -/
def parse_jwt_payload (b64decode : List Char → Option (List Nat))
    (jsonLoads : List Nat → Option JsonV) (jwt_token : String) : JsonV :=
  if jwt_token = "" then .obj []
  else
    let parts := splitDots jwt_token.data
    if parts.length ≠ 3 then .obj []
    else
      match b64decode (paddedPayload jwt_token) with
      | none => .obj []
      | some decoded =>
        match jsonLoads decoded with
        | none => .obj []
        | some v => v

/-- With no provider error, a code present, and a verifier stored by a
previous login, serving the callback issues exactly one exchange POST. -/
theorem handle_callback_calls_one (cfg : Config)
    (ep : TokenRequest → EndpointReply) (s : ServerState) (p : CallbackParams)
    (c v : String) (he : p.error = none) (hc : p.code = some c)
    (hv : s.code_verifier = some v) :
    (handle_callback cfg ep s p).exchangeCalls = 1 := by
  simp only [handle_callback, he, hc, hv]
  cases ep (exchange_code_for_tokens cfg v c) with
  | httpError => rfl
  | badJson => rfl
  | ok tokens => cases htk : List.lookup "access_token" tokens <;> simp [htk]

/-- Serving a callback never changes the stored code verifier. -/
theorem handle_callback_code_verifier (cfg : Config)
    (ep : TokenRequest → EndpointReply) (s : ServerState) (p : CallbackParams) :
    (handle_callback cfg ep s p).server.code_verifier = s.code_verifier := by
  cases he : p.error with
  | some e => simp [handle_callback, he]
  | none =>
    cases hc : p.code with
    | none => simp [handle_callback, he, hc]
    | some c =>
      cases hv : s.code_verifier with
      | none => simp [handle_callback, he, hc, hv]
      | some v =>
        simp only [handle_callback, he, hc, hv]
        cases ep (exchange_code_for_tokens cfg v c) with
        | httpError => simp [hv]
        | badJson => simp [hv]
        | ok tokens => cases htk : List.lookup "access_token" tokens <;> simp [htk, hv]

/-- The request the callback sends when it exchanges: exactly the one
built from the currently stored verifier. -/
theorem handle_callback_sentRequest (cfg : Config)
    (ep : TokenRequest → EndpointReply) (s : ServerState) (p : CallbackParams)
    (c v : String) (he : p.error = none) (hc : p.code = some c)
    (hv : s.code_verifier = some v) :
    (handle_callback cfg ep s p).sentRequest =
      some (exchange_code_for_tokens cfg v c) := by
  simp only [handle_callback, he, hc, hv]
  cases ep (exchange_code_for_tokens cfg v c) with
  | httpError => rfl
  | badJson => rfl
  | ok tokens => cases htk : List.lookup "access_token" tokens <;> simp [htk]

/-- An always-succeeding token endpoint, for concrete executions. -/
def ep_ok : TokenRequest → EndpointReply :=
  fun _ => .ok [("access_token", "AT1"), ("id_token", "IDT1")]

/-- A server state in which a login has stored a verifier. -/
def s_logged : ServerState := ⟨some "VERIF1", none, none⟩

/-- A callback request carrying a code but no state parameter at all. -/
def p_nostate : CallbackParams := ⟨none, some "ABC", none⟩

/-- Claim C1, counterexample: the callback whose state parameter is
absent (hence matches nothing) still triggers the token exchange -- the
exchange call count is 1, not 0, and the response is a success page, not
a StateMismatch failure. -/
theorem c1_counterexample :
    (handle_callback defaultConfig ep_ok s_logged p_nostate).exchangeCalls = 1 ∧
    (handle_callback defaultConfig ep_ok s_logged p_nostate).status = 200 ∧
    ¬ ((handle_callback defaultConfig ep_ok s_logged p_nostate).exchangeCalls = 0) :=
  ⟨rfl, rfl, by decide⟩

/-- Claim C1, amended: the callback handler performs no state validation
at all.  For every callback whose error parameter is absent and whose
code parameter is present, served on a server holding a stored verifier,
the token exchange is invoked exactly once -- whatever the state
parameter is, absent or arbitrary; no StateMismatch outcome exists in
the code. -/
theorem c1_no_state_validation (cfg : Config)
    (ep : TokenRequest → EndpointReply) (s : ServerState) (p : CallbackParams)
    (c v : String) (he : p.error = none) (hc : p.code = some c)
    (hv : s.code_verifier = some v) :
    (handle_callback cfg ep s p).exchangeCalls = 1 :=
  handle_callback_calls_one cfg ep s p c v he hc hv

/-- Claim C1, witness: a concrete callback with an unmatched state value
still produces one exchange call. -/
theorem c1_no_state_validation_witness :
    (handle_callback defaultConfig ep_ok ⟨some "V2", none, none⟩
      ⟨none, some "XYZ", some "neverIssued"⟩).exchangeCalls = 1 :=
  c1_no_state_validation defaultConfig ep_ok ⟨some "V2", none, none⟩
    ⟨none, some "XYZ", some "neverIssued"⟩ "XYZ" "V2" rfl rfl rfl

/-- A duplicate callback delivery, same code and state both times. -/
def p_dup : CallbackParams := ⟨none, some "CODE1", some "S1"⟩

/-- Claim C2, counterexample: delivering the same callback twice issues
two exchange POSTs -- the call count does not stay at 1, and the second
delivery is answered 200 again, not AlreadyExchanged. -/
theorem c2_counterexample :
    (run_callbacks defaultConfig ep_ok s_logged [p_dup, p_dup]).2 = 2 ∧
    ¬ ((run_callbacks defaultConfig ep_ok s_logged [p_dup, p_dup]).2 = 1) :=
  ⟨rfl, by decide⟩

/-- Claim C2, amended: the code has no replay protection and no terminal
flow state.  Every delivery of a callback with a code present and error
absent triggers a fresh exchange of the same authorization code: a
sequence of n duplicate deliveries issues exactly n exchange POSTs (no
AlreadyExchanged outcome exists in the code). -/
theorem c2_replay_exchanges_every_time (cfg : Config)
    (ep : TokenRequest → EndpointReply) (s : ServerState) (p : CallbackParams)
    (c v : String) (n : Nat) (he : p.error = none) (hc : p.code = some c)
    (hv : s.code_verifier = some v) :
    (run_callbacks cfg ep s (List.replicate n p)).2 = n := by
  induction n generalizing s with
  | zero => rfl
  | succ k ih =>
    rw [List.replicate_succ]
    show (handle_callback cfg ep s p).exchangeCalls +
      (run_callbacks cfg ep (handle_callback cfg ep s p).server
        (List.replicate k p)).2 = k + 1
    rw [handle_callback_calls_one cfg ep s p c v he hc hv]
    rw [ih _ ((handle_callback_code_verifier cfg ep s p).trans hv)]
    omega

/-- Claim C2, witness: three duplicate deliveries of the same callback
issue three exchange POSTs. -/
theorem c2_replay_exchanges_every_time_witness :
    (run_callbacks defaultConfig ep_ok s_logged
      (List.replicate 3 p_dup)).2 = 3 :=
  c2_replay_exchanges_every_time defaultConfig ep_ok s_logged p_dup
    "CODE1" "VERIF1" 3 rfl rfl rfl

/-- A fixed fake SHA-256 for concrete executions (the hash itself is an
external collaborator; only its 32-byte output shape matters here). -/
def sha0 : List Nat → List Nat := fun _ => List.replicate 32 7

/-- Concrete 32 random bytes for concrete executions. -/
def rb0 : List Nat := List.replicate 32 0

/-- A configuration whose redirect target differs from the module
constant (the scenario of the security note at lines 258-260). -/
def cfgEvil : Config :=
  { defaultConfig with redirect_uri := "http://evil-site.com/callback" }

/-- Claim C3, counterexample: nothing per-flow stores the redirect URI.
After a login the server state holds only the code verifier; the
authorization request carried the configured constant, and a token
exchange issued while the configuration reads differently sends that
different value -- the exchange redirect URI is re-derived from the
configuration at exchange time, not reused from per-flow storage. -/
theorem c3_counterexample :
    (handle_login sha0 defaultConfig ⟨none, none, none⟩ rb0 "S1").server =
      ⟨some (codeVerifierOf rb0), none, none⟩ ∧
    List.lookup "redirect_uri"
      (handle_login sha0 defaultConfig ⟨none, none, none⟩ rb0 "S1").params =
      some REDIRECT_URI ∧
    (exchange_code_for_tokens cfgEvil (codeVerifierOf rb0) "CODE").redirect_uri ≠
      REDIRECT_URI :=
  ⟨rfl, by decide, by decide⟩

/-- Claim C3, amended: the redirect_uri of the token-exchange POST is
byte-identical to the redirect_uri of the authorization request because
both call sites read the same module configuration constant
REDIRECT_URI; it is re-derived from the configuration at exchange time
(the server state created by a login stores only the code verifier),
not stored per flow. -/
theorem c3_redirect_uri_from_config (sha256 : List Nat → List Nat)
    (s : ServerState) (randomBytes : List Nat) (stateToken v c : String) :
    List.lookup "redirect_uri"
      (handle_login sha256 defaultConfig s randomBytes stateToken).params =
      some REDIRECT_URI ∧
    (exchange_code_for_tokens defaultConfig v c).redirect_uri = REDIRECT_URI ∧
    (handle_login sha256 defaultConfig s randomBytes stateToken).server =
      { s with code_verifier := some (codeVerifierOf randomBytes) } :=
  ⟨rfl, rfl, rfl⟩

/-- Claim C4: for every 32-byte random input the verifier is the
base64url-no-padding encoding of those bytes -- a 43-character string
(hence within the RFC 7636 bounds 43..128) over the unreserved charset
-- and the challenge is the base64url-no-padding encoding of the SHA-256
digest of the verifier. -/
theorem c4_pkce_generation (sha256 : List Nat → List Nat)
    (randomBytes : List Nat) (h32 : randomBytes.length = 32) :
    (codeVerifierOf randomBytes).length = 43 ∧
    43 ≤ (codeVerifierOf randomBytes).length ∧
    (codeVerifierOf randomBytes).length ≤ 128 ∧
    (∀ c ∈ (codeVerifierOf randomBytes).data, c ∈ unreservedChars) ∧
    codeChallengeOf sha256 (codeVerifierOf randomBytes) =
      ⟨rstripEq (b64EncodeChars (sha256 (strBytes (codeVerifierOf randomBytes))))⟩ := by
  have hlen := codeVerifierOf_length randomBytes h32
  refine ⟨hlen, by omega, by omega, ?_, rfl⟩
  intro c hc
  exact b64Alphabet_unreserved c (codeVerifierOf_charset randomBytes h32 c hc)

/-- Claim C4, witness: the PKCE shape facts evaluated at a concrete
32-byte input and a concrete digest function. -/
theorem c4_pkce_generation_witness :
    (codeVerifierOf rb0).length = 43 ∧
    43 ≤ (codeVerifierOf rb0).length ∧
    (codeVerifierOf rb0).length ≤ 128 ∧
    (∀ c ∈ (codeVerifierOf rb0).data, c ∈ unreservedChars) ∧
    codeChallengeOf sha0 (codeVerifierOf rb0) =
      ⟨rstripEq (b64EncodeChars (sha0 (strBytes (codeVerifierOf rb0))))⟩ :=
  c4_pkce_generation sha0 rb0 (by simp [rb0])

/-- Claim C5: the code verifier appears nowhere among the values of the
authorization-request parameters -- only the derived challenge is sent
(with method S256).  The two 43-character parameters that could
coincide with it only by a hash fixed point or a random collision are
assumed distinct from it. -/
theorem c5_verifier_not_transmitted (sha256 : List Nat → List Nat)
    (s : ServerState) (randomBytes : List Nat) (stateToken : String)
    (h32 : randomBytes.length = 32)
    (hch : codeChallengeOf sha256 (codeVerifierOf randomBytes) ≠
      codeVerifierOf randomBytes)
    (hst : stateToken ≠ codeVerifierOf randomBytes) :
    codeVerifierOf randomBytes ∉
      (handle_login sha256 defaultConfig s randomBytes stateToken).params.map
        Prod.snd ∧
    List.lookup "code_challenge_method"
      (handle_login sha256 defaultConfig s randomBytes stateToken).params =
      some "S256" := by
  have hlen := codeVerifierOf_length randomBytes h32
  constructor
  · intro hmem
    simp only [handle_login, auth_params, defaultConfig, List.map_cons,
      List.map_nil, List.mem_cons, List.not_mem_nil, or_false] at hmem
    rcases hmem with h | h | h | h | h | h | h
    · rw [h] at hlen; revert hlen; decide
    · rw [h] at hlen; revert hlen; decide
    · rw [h] at hlen; revert hlen; decide
    · rw [h] at hlen; revert hlen; decide
    · exact hch h.symm
    · rw [h] at hlen; revert hlen; decide
    · exact hst h.symm
  · rfl

/-- Claim C5, witness: a concrete login whose parameter values avoid the
verifier. -/
theorem c5_verifier_not_transmitted_witness :
    codeVerifierOf rb0 ∉
      (handle_login sha0 defaultConfig ⟨none, none, none⟩ rb0 "S1").params.map
        Prod.snd ∧
    List.lookup "code_challenge_method"
      (handle_login sha0 defaultConfig ⟨none, none, none⟩ rb0 "S1").params =
      some "S256" :=
  c5_verifier_not_transmitted sha0 ⟨none, none, none⟩ rb0 "S1"
    (by simp [rb0]) (by decide) (by decide)

/-- Claim C6: the claims decoder is total -- whatever the two stdlib
collaborators do, every input maps to some value, and it maps to the
empty dict when the input is empty or does not split into exactly three
dot-separated segments, when the padded middle segment fails base64url
decoding, or when the decoded bytes fail JSON parsing; when all stages
succeed on a JSON object, that object is returned.  The concrete cases
of the spec are the first two conjuncts. -/
theorem c6_parse_jwt_payload_total (b64decode : List Char → Option (List Nat))
    (jsonLoads : List Nat → Option JsonV) (t : String) :
    parse_jwt_payload b64decode jsonLoads "" = .obj [] ∧
    parse_jwt_payload b64decode jsonLoads "a.b" = .obj [] ∧
    ((splitDots t.data).length ≠ 3 →
      parse_jwt_payload b64decode jsonLoads t = .obj []) ∧
    (b64decode (paddedPayload t) = none →
      parse_jwt_payload b64decode jsonLoads t = .obj []) ∧
    (∀ bs, b64decode (paddedPayload t) = some bs → jsonLoads bs = none →
      parse_jwt_payload b64decode jsonLoads t = .obj []) ∧
    (∀ bs fields, (splitDots t.data).length = 3 →
      b64decode (paddedPayload t) = some bs →
      jsonLoads bs = some (.obj fields) →
      parse_jwt_payload b64decode jsonLoads t = .obj fields) := by
  refine ⟨rfl, rfl, ?_, ?_, ?_, ?_⟩
  · intro h
    by_cases ht : t = ""
    · subst ht; rfl
    · simp [parse_jwt_payload, ht, h]
  · intro hdec
    by_cases ht : t = ""
    · subst ht; rfl
    · by_cases h3 : (splitDots t.data).length ≠ 3
      · simp [parse_jwt_payload, ht, h3]
      · simp [parse_jwt_payload, ht, h3, hdec]
  · intro bs hdec hjl
    by_cases ht : t = ""
    · subst ht; rfl
    · by_cases h3 : (splitDots t.data).length ≠ 3
      · simp [parse_jwt_payload, ht, h3]
      · simp [parse_jwt_payload, ht, h3, hdec, hjl]
  · intro bs fields h3 hdec hjl
    have ht : t ≠ "" := by
      intro h
      subst h
      exact absurd h3 (by decide)
    simp [parse_jwt_payload, ht, h3, hdec, hjl]

/-- The payload segment of the concrete three-segment test token. -/
def jwtPayloadChars : List Char := "eyJzdWIiOiJ1MSJ9".data

/-- The bytes of the JSON object text with single key sub and value u1. -/
def subU1Bytes : List Nat :=
  [123, 34, 115, 117, 98, 34, 58, 34, 117, 49, 34, 125]

/-- A concrete base64url decoder oracle defined on the padded payload. -/
def dec0 : List Char → Option (List Nat) :=
  fun l => if l = jwtPayloadChars ++ List.replicate 4 '=' then some subU1Bytes
           else none

/-- A concrete JSON parser oracle defined on those bytes. -/
def jl0 : List Nat → Option JsonV :=
  fun bs => if bs = subU1Bytes then some (.obj [("sub", .str "u1")]) else none

/-- Claim C6, witness: the concrete three-segment token whose payload is
the base64url of the sub-u1 object decodes to that object, and the two
malformed inputs of the spec decode to the empty dict. -/
theorem c6_parse_jwt_payload_total_witness :
    parse_jwt_payload dec0 jl0 "h.eyJzdWIiOiJ1MSJ9.s" =
      JsonV.obj [("sub", JsonV.str "u1")] ∧
    parse_jwt_payload dec0 jl0 "" = JsonV.obj [] ∧
    parse_jwt_payload dec0 jl0 "a.b" = JsonV.obj [] :=
  have h := c6_parse_jwt_payload_total dec0 jl0 "h.eyJzdWIiOiJ1MSJ9.s"
  ⟨h.2.2.2.2.2 subU1Bytes [("sub", JsonV.str "u1")] (by decide) (by decide)
      (by simp [jl0]),
   h.1, h.2.1⟩

/-- Claim C7: a raising token POST (non-success HTTP status) or a token
dict without access_token leaves the callback in the except clause --
the browser gets 500 and the stored access token is unchanged; and on
every path, the stored access token after a callback is either what it
was before or exactly the access_token of a fully successful exchange,
served with 200. -/
theorem c7_exchange_failure_no_tokens :
    (∀ (cfg : Config) (ep : TokenRequest → EndpointReply) (s : ServerState)
       (p : CallbackParams) (c v : String),
       p.error = none → p.code = some c → s.code_verifier = some v →
       (ep (exchange_code_for_tokens cfg v c) = .httpError ∨
        ep (exchange_code_for_tokens cfg v c) = .badJson ∨
        (∃ tokens, ep (exchange_code_for_tokens cfg v c) = .ok tokens ∧
          List.lookup "access_token" tokens = none)) →
       (handle_callback cfg ep s p).status = 500 ∧
       (handle_callback cfg ep s p).server.access_token = s.access_token) ∧
    (∀ (cfg : Config) (ep : TokenRequest → EndpointReply) (s : ServerState)
       (p : CallbackParams),
       (handle_callback cfg ep s p).server.access_token = s.access_token ∨
       ∃ c v tokens tok, p.code = some c ∧ s.code_verifier = some v ∧
         ep (exchange_code_for_tokens cfg v c) = .ok tokens ∧
         List.lookup "access_token" tokens = some tok ∧
         (handle_callback cfg ep s p).server.access_token = some tok ∧
         (handle_callback cfg ep s p).status = 200) := by
  constructor
  · intro cfg ep s p c v he hc hv hfail
    simp only [handle_callback, he, hc, hv]
    rcases hfail with hep | hep | ⟨tokens, hep, htk⟩
    · simp [hep]
    · simp [hep]
    · simp [hep, htk]
  · intro cfg ep s p
    cases he : p.error with
    | some e => left; simp [handle_callback, he]
    | none =>
      cases hc : p.code with
      | none => left; simp [handle_callback, he, hc]
      | some c =>
        cases hv : s.code_verifier with
        | none => left; simp [handle_callback, he, hc, hv]
        | some v =>
          cases hep : ep (exchange_code_for_tokens cfg v c) with
          | httpError => left; simp [handle_callback, he, hc, hv, hep]
          | badJson => left; simp [handle_callback, he, hc, hv, hep]
          | ok tokens =>
            cases htk : List.lookup "access_token" tokens with
            | none => left; simp [handle_callback, he, hc, hv, hep, htk]
            | some tok =>
              right
              exact ⟨c, v, tokens, tok, rfl, rfl, hep, htk,
                by simp [handle_callback, he, hc, hv, hep, htk],
                by simp [handle_callback, he, hc, hv, hep, htk]⟩

/-- An always-raising token endpoint (non-success HTTP status). -/
def ep_err : TokenRequest → EndpointReply := fun _ => EndpointReply.httpError

/-- Claim C7, witness: a concrete failing exchange is answered 500 and
stores nothing. -/
theorem c7_exchange_failure_no_tokens_witness :
    (handle_callback defaultConfig ep_err s_logged p_dup).status = 500 ∧
    (handle_callback defaultConfig ep_err s_logged p_dup).server.access_token =
      none :=
  have h := c7_exchange_failure_no_tokens.1 defaultConfig ep_err s_logged p_dup
    "CODE1" "VERIF1" rfl rfl rfl (Or.inl rfl)
  ⟨h.1, h.2⟩

/-- Claim C8, counterexample: the token-exchange POST is issued with NO
timeout at all (the source calls urlopen with no timeout argument), so
the call is not bounded by any timeout. -/
theorem c8_counterexample :
    (exchange_code_for_tokens defaultConfig "VER" "CODE").timeout = none :=
  rfl

/-- Claim C8, amended: token-exchange calls carry no explicit timeout
(unbounded, urlopen's default); there is no ExchangeTimeout outcome or
flow state to mark Failed -- a raising exchange of any kind is surfaced
as a 500 response with the server unchanged -- and the handler performs
no retry: exactly one exchange POST per callback served. -/
theorem c8_no_timeout_no_retry (cfg : Config)
    (ep : TokenRequest → EndpointReply) (s : ServerState) (p : CallbackParams)
    (c v : String) (he : p.error = none) (hc : p.code = some c)
    (hv : s.code_verifier = some v) :
    (exchange_code_for_tokens cfg v c).timeout = none ∧
    (handle_callback cfg ep s p).exchangeCalls = 1 ∧
    (ep (exchange_code_for_tokens cfg v c) = .httpError ∨
        ep (exchange_code_for_tokens cfg v c) = .badJson →
      (handle_callback cfg ep s p).status = 500 ∧
      (handle_callback cfg ep s p).server = s) :=
  ⟨rfl, handle_callback_calls_one cfg ep s p c v he hc hv,
   fun hep => by
    simp only [handle_callback, he, hc, hv]
    rcases hep with hep | hep <;> simp [hep]⟩

/-- Claim C8, witness: a concrete callback whose exchange raises is
answered 500 after its single unbounded exchange attempt. -/
theorem c8_no_timeout_no_retry_witness :
    (exchange_code_for_tokens defaultConfig "VERIF1" "CODE1").timeout = none ∧
    (handle_callback defaultConfig ep_err s_logged p_dup).exchangeCalls = 1 ∧
    ((handle_callback defaultConfig ep_err s_logged p_dup).status = 500 ∧
      (handle_callback defaultConfig ep_err s_logged p_dup).server = s_logged) :=
  have h := c8_no_timeout_no_retry defaultConfig ep_err s_logged p_dup
    "CODE1" "VERIF1" rfl rfl rfl
  ⟨h.1, h.2.1, h.2.2 (Or.inl rfl)⟩

/-- Concrete 32 random bytes of a second login. -/
def rb1c : List Nat := List.replicate 32 1

/-- Claim C9: the server holds a single code-verifier slot.  After two
sequential logins the slot holds the verifier of the second login, and a
callback served afterwards -- whichever login its code belongs to --
sends the token-exchange POST with that most recent verifier. -/
theorem c9_single_verifier_slot (sha256 : List Nat → List Nat) (cfg : Config)
    (s : ServerState) (rb1 rb2 : List Nat) (st1 st2 : String)
    (ep : TokenRequest → EndpointReply) (p : CallbackParams) (c : String)
    (he : p.error = none) (hc : p.code = some c) :
    ((handle_login sha256 cfg
        ((handle_login sha256 cfg s rb1 st1).server) rb2 st2).server).code_verifier =
      some (codeVerifierOf rb2) ∧
    (handle_callback cfg ep
        ((handle_login sha256 cfg
          ((handle_login sha256 cfg s rb1 st1).server) rb2 st2).server)
        p).sentRequest =
      some (exchange_code_for_tokens cfg (codeVerifierOf rb2) c) :=
  ⟨rfl,
   handle_callback_sentRequest cfg ep _ p c (codeVerifierOf rb2) he hc rfl⟩

/-- Claim C9, witness: two concrete logins with different random bytes,
then a callback; the POST carries the verifier of the second login. -/
theorem c9_single_verifier_slot_witness :
    ((handle_login sha0 defaultConfig
        ((handle_login sha0 defaultConfig ⟨none, none, none⟩ rb0 "S1").server)
        rb1c "S2").server).code_verifier = some (codeVerifierOf rb1c) ∧
    (handle_callback defaultConfig ep_ok
        ((handle_login sha0 defaultConfig
          ((handle_login sha0 defaultConfig ⟨none, none, none⟩ rb0 "S1").server)
          rb1c "S2").server)
        p_dup).sentRequest =
      some (exchange_code_for_tokens defaultConfig (codeVerifierOf rb1c) "CODE1") :=
  c9_single_verifier_slot sha0 defaultConfig ⟨none, none, none⟩ rb0 rb1c
    "S1" "S2" ep_ok p_dup "CODE1" rfl rfl

/-- Claim C10: the protected endpoint ignores the Authorization header.
Requests differing only in that header get identical responses, and the
status is 401 exactly when no access token is stored on the server, 200
when one is. -/
theorem c10_protected_api_header_independent (s : ServerState)
    (h1 h2 : String) :
    handle_protected_api s h1 = handle_protected_api s h2 ∧
    (handle_protected_api s h1).1 =
      (if s.access_token.isSome then 200 else 401) := by
  cases hat : s.access_token <;> simp [handle_protected_api, hat]
